import Mathlib

/-
Verification development for the newswire bot (`bot.py`): the polling /
deduplication / fanout pipeline.  Pure functions of the source are embedded
directly; the external collaborators (source-platform fetch, chat-platform
channel lookup and send, similarity vector space) are modelled from the
spec as explicit parameters.  Machine floats of the source are modelled as
rationals.
-/

set_option autoImplicit false

/-- Posts fetched from the source platform (tweepy `Status`).  The pipeline
in `stream_tweets` reads `id`, `full_text` and the author's screen name;
the retweet / reply / media fields exist on the platform object and are the
inputs of the spec's per-subscription filter model (`media` is kept as the
list of attachment URLs, since only emptiness matters to the filter). -/
structure Tweet where
  id : Nat
  full_text : String
  screen_name : String
  is_retweet : Bool
  is_reply : Bool
  media : List String
  deriving DecidableEq, Repr

/-- Normalization applied in `remove_similar_headlines_tfidf`:
`tweet.full_text.lower().strip()` — lower-case every character and trim
surrounding whitespace. -/
def normText (s : String) : String :=
  String.mk ((((s.data.map Char.toLower).dropWhile Char.isWhitespace).reverse.dropWhile
    Char.isWhitespace).reverse)

/-- Helper of the tokenizer: emit the pending token (reversed accumulator)
when it has at least two characters, as in sklearn's default token pattern. -/
def tokenFlush (cur : List Char) : List (List Char) :=
  if 2 ≤ cur.length then [cur.reverse] else []

/-- Helper of the tokenizer: split a character stream into maximal
alphanumeric runs, keeping runs of length at least two. -/
def tokensAux : List Char → List Char → List (List Char)
  | cur, [] => tokenFlush cur
  | cur, c :: rest =>
    if c.isAlphanum then tokensAux (c :: cur) rest
    else tokenFlush cur ++ tokensAux [] rest

/-- Modelled from the spec (§4.1): the vectorizer used by
`remove_similar_headlines_tfidf` is sklearn's `TfidfVectorizer`, external to
the repository; the spec admits "any scheme producing a comparable vector
space" as a conformant normalization.  We tokenize into maximal alphanumeric
runs of length at least two (sklearn's default token pattern); the English
stop-word list is omitted, a conformant choice under the spec's allowance
(none of the concrete texts used below contains a stop word). -/
def tokenize (s : String) : List (List Char) :=
  tokensAux [] s.data

/-- Dot product of the term-count vectors of two token lists (ranging over
the distinct tokens of the first suffices, since absent tokens contribute
zero). -/
def dotCount (a b : List (List Char)) : Nat :=
  a.dedup.foldr (fun tok acc => acc + a.count tok * b.count tok) 0

/-- Modelled from the spec (§4.1): the decision `cosine(a, b) ≥ t` between
two documents of the vector space.  Cosine similarity of non-negative count
vectors: for `t ≤ 0` (that is, `t.num ≤ 0`) it always holds, similarities
being non-negative; for `t > 0` it is equivalent to
`dot² · t.den² ≥ t.num² · ‖a‖² · ‖b‖²`, exact integer arithmetic; a zero
vector (no tokens) has similarity `0`, as sklearn's `cosine_similarity`
reports for zero rows. -/
def simGE (a b : List (List Char)) (t : ℚ) : Bool :=
  if dotCount a a = 0 ∨ dotCount b b = 0 then decide (t.num ≤ 0)
  else
    decide (t.num ≤ 0) ||
      decide (t.num * t.num * ((dotCount a a : Int) * (dotCount b b : Int)) ≤
        (dotCount a b : Int) * (dotCount a b : Int) * ((t.den : Int) * (t.den : Int)))

/-- Modelled from the spec (§4.1): the inner loop of
`remove_similar_headlines_tfidf` — given the normalized texts accepted so
far and the normalized current text, decide whether some accepted text has
similarity `≥ threshold` with the current text (the scan of
`similarity_matrix[-1][:-1]` with early exit). -/
def tfidfDup (accTexts : List String) (cur : String) (t : ℚ) : Bool :=
  accTexts.any fun a => simGE (tokenize a) (tokenize cur) t

/-- Body of `remove_similar_headlines_tfidf`: fold over the incoming tweets
carrying the `unique_tweets` accumulator; a tweet is kept when the
accumulator is empty (no comparison is computed) or when no accepted text
reaches the similarity threshold, and is then appended to the accumulator.
The duplicate decision is a parameter so that the structural properties of
the loop can be stated for any similarity scheme. -/
def dedupeAux (dup : List String → String → ℚ → Bool) (t : ℚ) :
    List Tweet → List Tweet → List Tweet
  | _, [] => []
  | acc, tw :: rest =>
    if acc.isEmpty then
      tw :: dedupeAux dup t (acc ++ [tw]) rest
    else if dup (acc.map fun u => normText u.full_text) (normText tw.full_text) t then
      dedupeAux dup t acc rest
    else
      tw :: dedupeAux dup t (acc ++ [tw]) rest

/-- The similarity-based deduplication pass of `bot.py`
(`remove_similar_headlines_tfidf`): greedy first-fit over the input order,
dropping a tweet whenever some already-accepted tweet's normalized text is
similar above the threshold. -/
def remove_similar_headlines_tfidf (tweets : List Tweet) (similarity_threshold : ℚ) :
    List Tweet :=
  dedupeAux tfidfDup similarity_threshold [] tweets

/-- Default value of the `similarity_threshold` parameter in the source
(`0.4`); `stream_tweets` calls the dedupe with no explicit threshold, so
this is the value it uses. -/
def defaultSimilarityThreshold : ℚ := mkRat 2 5

/-- Row of the `twitter_channels` table (`create_table`): the subscription
created by the `!start` command, holding the per-subscription filter
configuration (`retweets`, `replies`, `media_only`, `similarity_threshold`,
schema default `0.5`).  `id` is the auto-increment primary key; there is no
uniqueness constraint on `(twitter_account, channel_id)`. -/
structure TwitterChannelRow where
  id : Nat
  twitter_account : String
  channel_id : Nat
  retweets : Bool
  replies : Bool
  media_only : Bool
  similarity_threshold : ℚ
  deriving DecidableEq, Repr

/-- Row of the `monitored_twitter_accounts` table read by `stream_tweets`:
`(id, twitter_id, twitter_handle, last_tweet_id)`, the cursor being the
nullable `last_tweet_id`. -/
structure MonitoredAccountRow where
  id : Nat
  twitter_id : Nat
  twitter_handle : String
  last_tweet_id : Option Nat
  deriving DecidableEq, Repr

/-- Row of the `twitter_account_channels` link table populated by
`add_twitter_account` and read by the fanout of `stream_tweets`.  It has no
filter columns. -/
structure AccountChannelRow where
  twitter_account_id : Nat
  discord_channel_id : Nat
  deriving DecidableEq, Repr

/-- The persisted state: the three tables of the bot's database. -/
structure Db where
  twitter_channels : List TwitterChannelRow
  monitored_twitter_accounts : List MonitoredAccountRow
  twitter_account_channels : List AccountChannelRow
  deriving DecidableEq, Repr

/-- Auto-increment key generation for an insert. -/
def nextRowId (ids : List Nat) : Nat :=
  ids.foldr (fun i m => max i m) 0 + 1

/-- The `add_twitter_channel` helper: a plain `INSERT` into
`twitter_channels` of the account, channel and filter settings — no
lookup of an existing `(twitter_account, channel_id)` row and no
`ON DUPLICATE KEY` clause. -/
def add_twitter_channel (db : Db) (twitter_account : String) (channel_id : Nat)
    (retweets replies media_only : Bool) (similarity_threshold : ℚ) : Db :=
  ⟨db.twitter_channels ++
      [⟨nextRowId (db.twitter_channels.map fun r => r.id), twitter_account, channel_id,
        retweets, replies, media_only, similarity_threshold⟩],
    db.monitored_twitter_accounts, db.twitter_account_channels⟩

/-- The `add_twitter_account` helper: the external `api.get_user` lookup is
modelled by passing the resolved `(user_id, screen_name)` pair.  The
monitored-accounts insert is guarded by a lookup on `twitter_id`
(idempotent registration), but the `twitter_account_channels` link row is
inserted unconditionally. -/
def add_twitter_account (db : Db) (user_id : Nat) (screen_name : String)
    (channel_id : Nat) : Db :=
  match db.monitored_twitter_accounts.find? fun r => r.twitter_id == user_id with
  | some r =>
    ⟨db.twitter_channels, db.monitored_twitter_accounts,
      db.twitter_account_channels ++ [⟨r.id, channel_id⟩]⟩
  | none =>
    let aid := nextRowId (db.monitored_twitter_accounts.map fun r => r.id)
    ⟨db.twitter_channels,
      db.monitored_twitter_accounts ++ [⟨aid, user_id, screen_name, none⟩],
      db.twitter_account_channels ++ [⟨aid, channel_id⟩]⟩

/-- Observable effects of one polling cycle: a successful send of a tweet to
a channel, and a cursor (`last_tweet_id`) update for an account. -/
inductive Event where
  | deliver (channel_id : Nat) (tweet_id : Nat)
  | advance (account_id : Nat) (tweet_id : Nat)
  deriving DecidableEq, Repr

/-- External collaborators of `stream_tweets`, modelled from the spec (§6):
per-account timelines on the source platform (newest first), fetch failure
injection (a `tweepy.TweepError`, rate-limit conditions included), channel
resolution (`bot.get_channel` returning a channel or `None`), and send
failure injection (a chat-platform error raised by `channel.send`). -/
structure StreamEnv where
  timelines : Nat → List Tweet
  fetchFails : Nat → Bool
  getChannel : Nat → Bool
  sendFails : Nat → Nat → Bool

/-- The fetch step of `stream_tweets`: with a stored cursor the call is
`api.user_timeline(since_id=last_tweet_id)` — all posts strictly newer than
the cursor, newest first; with no cursor it is
`api.user_timeline(count=1)` — the single most recent post.  Modelled from
the spec (§4.3): the timeline semantics of the external `api.user_timeline`
is the fetch-adapter contract; the choice between the two calls is the
source's. -/
def fetch (timeline : List Tweet) : Option Nat → List Tweet
  | some c => timeline.filter fun tw => c < tw.id
  | none => timeline.take 1

/-- Result of sending one tweet to the channel list: the successful
deliveries, and whether a send raised (a raise stops the channel loop). -/
structure FanoutStep where
  events : List Event
  raised : Bool
  deriving DecidableEq, Repr

/-- The inner channel loop of `stream_tweets` for one tweet: resolve each
channel; an unresolved channel is skipped (`if channel:`); a successful send
is recorded; a raising send aborts the loop — the chat-platform error is not
a `tweepy.TweepError`, so nothing in `stream_tweets` catches it. -/
def fanoutTweet (env : StreamEnv) (tw : Tweet) : List Nat → FanoutStep
  | [] => ⟨[], false⟩
  | ch :: rest =>
    if env.getChannel ch then
      if env.sendFails ch tw.id then ⟨[], true⟩
      else
        let s := fanoutTweet env tw rest
        ⟨Event.deliver ch tw.id :: s.events, s.raised⟩
    else fanoutTweet env tw rest

/-- Result of the per-account tweet loop: events, the committed cursor, and
whether a send raised (aborting the rest of the cycle). -/
structure FanoutResult where
  events : List Event
  cursor : Option Nat
  aborted : Bool
  deriving DecidableEq, Repr

/-- The tweet loop of `stream_tweets` for one account: for each surviving
tweet (oldest first), deliver to every linked channel, then `UPDATE
monitored_twitter_accounts SET last_tweet_id` and commit.  A raising send
leaves the current tweet's cursor update unexecuted and stops the loop;
updates committed for earlier tweets persist. -/
def fanoutTweets (env : StreamEnv) (account_id : Nat) (chans : List Nat) :
    List Tweet → Option Nat → FanoutResult
  | [], cur => ⟨[], cur, false⟩
  | tw :: rest, cur =>
    let s := fanoutTweet env tw chans
    if s.raised then ⟨s.events, cur, true⟩
    else
      let r := fanoutTweets env account_id chans rest (some tw.id)
      ⟨s.events ++ Event.advance account_id tw.id :: r.events, r.cursor, r.aborted⟩

/-- The `SELECT discord_channel_id FROM twitter_account_channels WHERE
twitter_account_id = %s` of the fanout (run per tweet in the source; the
table does not change during a cycle, so the list is the same each time). -/
def channelsOf (db : Db) (account_id : Nat) : List Nat :=
  (db.twitter_account_channels.filter fun r => r.twitter_account_id == account_id).map
    fun r => r.discord_channel_id

/-- Result of processing one account in a cycle. -/
structure AccountResult where
  row : MonitoredAccountRow
  events : List Event
  aborted : Bool
  deriving DecidableEq, Repr

/-- One account's turn inside `stream_tweets`: a fetch error
(`tweepy.TweepError`, rate limits included) is caught — log and continue
with nothing delivered and the cursor untouched; otherwise fetch since the
cursor, dedupe with the default similarity threshold (the stored
`similarity_threshold` of `twitter_channels` is never read), and fan out the
survivors oldest first. -/
def processAccount (env : StreamEnv) (db : Db) (acct : MonitoredAccountRow) :
    AccountResult :=
  if env.fetchFails acct.twitter_id then ⟨acct, [], false⟩
  else
    let tweets := fetch (env.timelines acct.twitter_id) acct.last_tweet_id
    let uniq := remove_similar_headlines_tfidf tweets defaultSimilarityThreshold
    let r := fanoutTweets env acct.id (channelsOf db acct.id) uniq.reverse acct.last_tweet_id
    ⟨⟨acct.id, acct.twitter_id, acct.twitter_handle, r.cursor⟩, r.events, r.aborted⟩

/-- Result of one polling cycle over all monitored accounts. -/
structure CycleResult where
  accounts : List MonitoredAccountRow
  events : List Event
  aborted : Bool
  deriving DecidableEq, Repr

/-- The account loop of one cycle of `stream_tweets`: accounts are attempted
in order; a raised send error escapes the per-account `except
tweepy.TweepError` handler and aborts the loop, leaving the remaining
accounts unprocessed for this cycle. -/
def streamAccounts (env : StreamEnv) (db : Db) : List MonitoredAccountRow → CycleResult
  | [] => ⟨[], [], false⟩
  | a :: rest =>
    let ra := processAccount env db a
    if ra.aborted then ⟨ra.row :: rest, ra.events, true⟩
    else
      let rr := streamAccounts env db rest
      ⟨ra.row :: rr.accounts, ra.events ++ rr.events, rr.aborted⟩

/-- One cycle of the `while True` loop of `stream_tweets`: select all
monitored accounts and process each in turn. -/
def streamCycle (env : StreamEnv) (db : Db) : CycleResult :=
  streamAccounts env db db.monitored_twitter_accounts

/-- Cursor comparison: `none` (never polled) precedes every cursor value; a
set cursor never falls back to `none` and only moves to larger post ids. -/
def optLE : Option Nat → Option Nat → Bool
  | none, _ => true
  | some _, none => false
  | some x, some y => decide (x ≤ y)

theorem optLE_refl : ∀ c : Option Nat, optLE c c = true
  | none => rfl
  | some x => by simp [optLE]

theorem optLE_trans : ∀ {a b c : Option Nat},
    optLE a b = true → optLE b c = true → optLE a c = true
  | none, _, _, _, _ => rfl
  | some _, none, _, h, _ => by simp [optLE] at h
  | some _, some _, none, _, h => by simp [optLE] at h
  | some x, some y, some z, h1, h2 => by
    simp [optLE] at h1 h2 ⊢
    exact le_trans h1 h2

theorem simGE_zero (a b : List (List Char)) : simGE a b 0 = true := by
  by_cases hz : dotCount a a = 0 ∨ dotCount b b = 0 <;>
    simp [simGE, hz, Rat.num_nonpos]

theorem simGE_antitone {a b : List (List Char)} {t1 t2 : ℚ} (h : t1 ≤ t2)
    (h2 : simGE a b t2 = true) : simGE a b t1 = true := by
  by_cases hz : dotCount a a = 0 ∨ dotCount b b = 0
  · simp only [simGE, hz, if_true, if_pos, decide_eq_true_eq] at h2 ⊢
    exact Rat.num_nonpos.mpr (le_trans h (Rat.num_nonpos.mp h2))
  · simp only [simGE, hz, if_false, if_neg, not_false_iff, Bool.or_eq_true,
      decide_eq_true_eq] at h2 ⊢
    rcases h2 with h2 | h2
    · exact Or.inl (Rat.num_nonpos.mpr (le_trans h (Rat.num_nonpos.mp h2)))
    · by_cases hp : t1.num ≤ 0
      · exact Or.inl hp
      · right
        have hn1 : 0 < t1.num := lt_of_not_le hp
        have ht1 : 0 < t1 := Rat.num_pos.mp hn1
        have hn2 : 0 < t2.num := Rat.num_pos.mpr (lt_of_lt_of_le ht1 h)
        have hd1 : (0 : Int) < (t1.den : Int) := Int.natCast_pos.mpr t1.pos
        have hd2 : (0 : Int) < (t2.den : Int) := Int.natCast_pos.mpr t2.pos
        have hle : t1.num * (t2.den : Int) ≤ t2.num * (t1.den : Int) := Rat.le_def.mp h
        have hsq : t1.num * (t2.den : Int) * (t1.num * (t2.den : Int)) ≤
            t2.num * (t1.den : Int) * (t2.num * (t1.den : Int)) :=
          mul_le_mul hle hle (by positivity) (by positivity)
        have hAB : (0 : Int) ≤ (dotCount a a : Int) * (dotCount b b : Int) := by positivity
        have key : t1.num * t1.num * ((dotCount a a : Int) * (dotCount b b : Int)) *
              ((t2.den : Int) * (t2.den : Int)) ≤
            (dotCount a b : Int) * (dotCount a b : Int) *
              ((t1.den : Int) * (t1.den : Int)) * ((t2.den : Int) * (t2.den : Int)) := by
          calc t1.num * t1.num * ((dotCount a a : Int) * (dotCount b b : Int)) *
                ((t2.den : Int) * (t2.den : Int))
              = t1.num * (t2.den : Int) * (t1.num * (t2.den : Int)) *
                ((dotCount a a : Int) * (dotCount b b : Int)) := by ring
            _ ≤ t2.num * (t1.den : Int) * (t2.num * (t1.den : Int)) *
                ((dotCount a a : Int) * (dotCount b b : Int)) :=
                mul_le_mul_of_nonneg_right hsq hAB
            _ = t2.num * t2.num * ((dotCount a a : Int) * (dotCount b b : Int)) *
                ((t1.den : Int) * (t1.den : Int)) := by ring
            _ ≤ (dotCount a b : Int) * (dotCount a b : Int) *
                ((t2.den : Int) * (t2.den : Int)) * ((t1.den : Int) * (t1.den : Int)) :=
                mul_le_mul_of_nonneg_right h2 (by positivity)
            _ = (dotCount a b : Int) * (dotCount a b : Int) *
                ((t1.den : Int) * (t1.den : Int)) * ((t2.den : Int) * (t2.den : Int)) := by
                ring
        exact le_of_mul_le_mul_right key (by positivity)

theorem dedupeAux_idem (dup : List String → String → ℚ → Bool) (t : ℚ) :
    ∀ (l acc : List Tweet),
      dedupeAux dup t acc (dedupeAux dup t acc l) = dedupeAux dup t acc l
  | [], _ => rfl
  | tw :: rest, acc => by
    by_cases he : acc.isEmpty
    · have h1 : dedupeAux dup t acc (tw :: rest) =
          tw :: dedupeAux dup t (acc ++ [tw]) rest := by
        simp [dedupeAux, he]
      rw [h1]
      have h2 : dedupeAux dup t acc (tw :: dedupeAux dup t (acc ++ [tw]) rest) =
          tw :: dedupeAux dup t (acc ++ [tw]) (dedupeAux dup t (acc ++ [tw]) rest) := by
        simp [dedupeAux, he]
      rw [h2, dedupeAux_idem dup t rest (acc ++ [tw])]
    · by_cases hd : dup (acc.map fun u => normText u.full_text) (normText tw.full_text) t
      · have h1 : dedupeAux dup t acc (tw :: rest) = dedupeAux dup t acc rest := by
          simp [dedupeAux, he, hd]
        rw [h1, dedupeAux_idem dup t rest acc]
      · have h1 : dedupeAux dup t acc (tw :: rest) =
            tw :: dedupeAux dup t (acc ++ [tw]) rest := by
          simp [dedupeAux, he, hd]
        rw [h1]
        have h2 : dedupeAux dup t acc (tw :: dedupeAux dup t (acc ++ [tw]) rest) =
            tw :: dedupeAux dup t (acc ++ [tw]) (dedupeAux dup t (acc ++ [tw]) rest) := by
          simp [dedupeAux, he, hd]
        rw [h2, dedupeAux_idem dup t rest (acc ++ [tw])]

theorem dedupeAux_sublist (dup : List String → String → ℚ → Bool) (t : ℚ) :
    ∀ (l acc : List Tweet), List.Sublist (dedupeAux dup t acc l) l
  | [], _ => List.Sublist.refl []
  | tw :: rest, acc => by
    by_cases he : acc.isEmpty
    · have h1 : dedupeAux dup t acc (tw :: rest) =
          tw :: dedupeAux dup t (acc ++ [tw]) rest := by
        simp [dedupeAux, he]
      rw [h1]
      exact List.Sublist.cons₂ tw (dedupeAux_sublist dup t rest (acc ++ [tw]))
    · by_cases hd : dup (acc.map fun u => normText u.full_text) (normText tw.full_text) t
      · have h1 : dedupeAux dup t acc (tw :: rest) = dedupeAux dup t acc rest := by
          simp [dedupeAux, he, hd]
        rw [h1]
        exact List.Sublist.cons tw (dedupeAux_sublist dup t rest acc)
      · have h1 : dedupeAux dup t acc (tw :: rest) =
            tw :: dedupeAux dup t (acc ++ [tw]) rest := by
          simp [dedupeAux, he, hd]
        rw [h1]
        exact List.Sublist.cons₂ tw (dedupeAux_sublist dup t rest (acc ++ [tw]))

/-- Whether an event is a cursor advance. -/
def isAdvance : Event → Bool
  | Event.advance _ _ => true
  | Event.deliver _ _ => false

theorem fanoutTweet_raised (env : StreamEnv) (tw : Tweet)
    (h : ∀ ch tid, env.sendFails ch tid = false) :
    ∀ chans, (fanoutTweet env tw chans).raised = false
  | [] => rfl
  | ch :: rest => by
    by_cases hc : env.getChannel ch
    · simp [fanoutTweet, hc, h ch tw.id, fanoutTweet_raised env tw h rest]
    · simp [fanoutTweet, hc, fanoutTweet_raised env tw h rest]

theorem fanoutTweet_no_advance (env : StreamEnv) (tw : Tweet) :
    ∀ chans, (fanoutTweet env tw chans).events.filter isAdvance = []
  | [] => rfl
  | ch :: rest => by
    by_cases hc : env.getChannel ch
    · by_cases hs : env.sendFails ch tw.id
      · simp [fanoutTweet, hc, hs]
      · simp [fanoutTweet, hc, hs, isAdvance, fanoutTweet_no_advance env tw rest]
    · simp [fanoutTweet, hc, fanoutTweet_no_advance env tw rest]

/-- The cursor value committed after processing a tweet batch in order:
the last tweet's id, or the incoming cursor if the batch is empty. -/
def finalCursor (cur : Option Nat) : List Tweet → Option Nat
  | [] => cur
  | tw :: rest => finalCursor (some tw.id) rest

/-- The event trace of a failure-free tweet batch: per tweet, its delivery
events followed by exactly one cursor advance. -/
def tweetEvents (env : StreamEnv) (aid : Nat) (chans : List Nat) : List Tweet → List Event
  | [] => []
  | tw :: rest =>
    (fanoutTweet env tw chans).events ++
      Event.advance aid tw.id :: tweetEvents env aid chans rest

theorem fanoutTweets_no_fail (env : StreamEnv) (aid : Nat) (chans : List Nat)
    (h : ∀ ch tid, env.sendFails ch tid = false) :
    ∀ (l : List Tweet) (cur : Option Nat),
      fanoutTweets env aid chans l cur =
        ⟨tweetEvents env aid chans l, finalCursor cur l, false⟩
  | [], _ => rfl
  | tw :: rest, cur => by
    simp [fanoutTweets, fanoutTweet_raised env tw h chans,
      fanoutTweets_no_fail env aid chans h rest (some tw.id), tweetEvents, finalCursor]

theorem fanoutTweets_cursor_mono (env : StreamEnv) (aid : Nat) (chans : List Nat) :
    ∀ (l : List Tweet) (cur : Option Nat),
      (∀ tw ∈ l, optLE cur (some tw.id) = true) →
      List.Pairwise (fun a b : Tweet => a.id ≤ b.id) l →
      optLE cur (fanoutTweets env aid chans l cur).cursor = true
  | [], cur, _, _ => optLE_refl cur
  | tw :: rest, cur, hmem, hpair => by
    by_cases hr : (fanoutTweet env tw chans).raised
    · simp [fanoutTweets, hr]
      exact optLE_refl cur
    · have hrec : optLE (some tw.id) (fanoutTweets env aid chans rest (some tw.id)).cursor
          = true :=
        fanoutTweets_cursor_mono env aid chans rest (some tw.id)
          (fun tw' h' => by simp [optLE, (List.pairwise_cons.mp hpair).1 tw' h'])
          (List.pairwise_cons.mp hpair).2
      have hhd : optLE cur (some tw.id) = true := hmem tw (List.mem_cons_self tw rest)
      simp [fanoutTweets, hr]
      exact optLE_trans hhd hrec

theorem processAccount_cursor_mono (env : StreamEnv) (db : Db) (acct : MonitoredAccountRow)
    (hdesc : List.Pairwise (fun a b : Tweet => b.id < a.id) (env.timelines acct.twitter_id)) :
    optLE acct.last_tweet_id (processAccount env db acct).row.last_tweet_id = true := by
  by_cases hf : env.fetchFails acct.twitter_id
  · simp only [processAccount, hf, if_true]
    exact optLE_refl _
  · have hsub : List.Sublist
        (remove_similar_headlines_tfidf
          (fetch (env.timelines acct.twitter_id) acct.last_tweet_id)
          defaultSimilarityThreshold)
        (fetch (env.timelines acct.twitter_id) acct.last_tweet_id) :=
      dedupeAux_sublist _ _ _ _
    have hpairT : List.Pairwise (fun a b : Tweet => b.id < a.id)
        (fetch (env.timelines acct.twitter_id) acct.last_tweet_id) := by
      cases hcur : acct.last_tweet_id with
      | none =>
        simp only [fetch]
        exact List.Pairwise.sublist (List.take_sublist 1 _) hdesc
      | some c =>
        simp only [fetch]
        exact List.Pairwise.filter _ hdesc
    have hpairU : List.Pairwise (fun a b : Tweet => b.id < a.id)
        (remove_similar_headlines_tfidf
          (fetch (env.timelines acct.twitter_id) acct.last_tweet_id)
          defaultSimilarityThreshold) :=
      List.Pairwise.sublist hsub hpairT
    have hpairL : List.Pairwise (fun a b : Tweet => a.id ≤ b.id)
        (remove_similar_headlines_tfidf
          (fetch (env.timelines acct.twitter_id) acct.last_tweet_id)
          defaultSimilarityThreshold).reverse :=
      List.pairwise_reverse.mpr (hpairU.imp fun h => le_of_lt h)
    have hmem : ∀ tw ∈ (remove_similar_headlines_tfidf
        (fetch (env.timelines acct.twitter_id) acct.last_tweet_id)
        defaultSimilarityThreshold).reverse,
        optLE acct.last_tweet_id (some tw.id) = true := by
      intro tw htw
      have h2 : tw ∈ fetch (env.timelines acct.twitter_id) acct.last_tweet_id :=
        hsub.subset (List.mem_reverse.mp htw)
      cases hcur : acct.last_tweet_id with
      | none => rfl
      | some c =>
        rw [hcur] at h2
        simp only [fetch, List.mem_filter, decide_eq_true_eq] at h2
        simp [optLE]
        exact le_of_lt h2.2
    have hfin := fanoutTweets_cursor_mono env acct.id (channelsOf db acct.id)
      (remove_similar_headlines_tfidf
        (fetch (env.timelines acct.twitter_id) acct.last_tweet_id)
        defaultSimilarityThreshold).reverse
      acct.last_tweet_id hmem hpairL
    simpa [processAccount, hf] using hfin

theorem tfidfDup_antitone {acc : List String} {cur : String} {t1 t2 : ℚ} (h : t1 ≤ t2)
    (hd : tfidfDup acc cur t2 = true) : tfidfDup acc cur t1 = true := by
  simp only [tfidfDup, List.any_eq_true] at hd ⊢
  obtain ⟨a, ha, hsim⟩ := hd
  exact ⟨a, ha, simGE_antitone h hsim⟩

theorem dedupeAux_zero : ∀ (l acc : List Tweet), acc.isEmpty = false →
    dedupeAux tfidfDup 0 acc l = []
  | [], _, _ => rfl
  | tw :: rest, acc, h => by
    have hdup : tfidfDup (acc.map fun u => normText u.full_text)
        (normText tw.full_text) 0 = true := by
      cases acc with
      | nil => simp [List.isEmpty] at h
      | cons a as => simp [tfidfDup, simGE_zero]
    simp [dedupeAux, h, hdup, dedupeAux_zero rest acc h]

/-- Tweets used for the dedupe claims: token-count cosine similarities are
`sim(A,B) = 1/2`, `sim(B,C) = 2/√6 ≈ 0.816`, `sim(A,C) = 1/√6 ≈ 0.408`. -/
def c7twA : Tweet := ⟨1, "aa bb", "u", false, false, []⟩

def c7twB : Tweet := ⟨2, "bb cc", "u", false, false, []⟩

def c7twC : Tweet := ⟨3, "bb cc dd", "u", false, false, []⟩

/-- C7: the claim "for every post sequence P and thresholds t1 < t2,
dedupe(P, t1) accepts a subset of dedupe(P, t2)" is false: with
t1 = 0.45 < t2 = 0.7, the third tweet survives the stricter run (the middle
tweet was dropped there, removing it from the comparison set) but not the
looser run. -/
theorem c7_threshold_monotonicity_fails :
    mkRat 9 20 < mkRat 7 10 ∧
    remove_similar_headlines_tfidf [c7twA, c7twB, c7twC] (mkRat 9 20) = [c7twA, c7twC] ∧
    remove_similar_headlines_tfidf [c7twA, c7twB, c7twC] (mkRat 7 10) = [c7twA, c7twB] ∧
    c7twC ∈ remove_similar_headlines_tfidf [c7twA, c7twB, c7twC] (mkRat 9 20) ∧
    c7twC ∉ remove_similar_headlines_tfidf [c7twA, c7twB, c7twC] (mkRat 7 10) := by
  decide

/-- C7 (amended): threshold monotonicity does hold for batches of at most
two posts — the single pairwise comparison is threshold-antitone; for three
or more posts it fails because a post dropped under the stricter threshold
disappears from the comparison set of later posts. -/
theorem c7_monotone_on_pairs : ∀ l : List Tweet, l.length ≤ 2 → ∀ t1 t2 : ℚ, t1 ≤ t2 →
    ∀ x ∈ remove_similar_headlines_tfidf l t1, x ∈ remove_similar_headlines_tfidf l t2 := by
  intro l hlen t1 t2 ht x hx
  cases l with
  | nil => exact hx
  | cons a rest =>
    cases rest with
    | nil => exact hx
    | cons b rest2 =>
      cases rest2 with
      | cons c r3 => simp at hlen
      | nil =>
        by_cases hd1 : tfidfDup [normText a.full_text] (normText b.full_text) t1
        · have e1 : remove_similar_headlines_tfidf [a, b] t1 = [a] := by
            simp [remove_similar_headlines_tfidf, dedupeAux, hd1]
          rw [e1] at hx
          have hxa : x = a := by simpa using hx
          rw [hxa]
          by_cases hd2 : tfidfDup [normText a.full_text] (normText b.full_text) t2 <;>
            simp [remove_similar_headlines_tfidf, dedupeAux, hd2]
        · have hd2 : ¬tfidfDup [normText a.full_text] (normText b.full_text) t2 := by
            intro hcon
            exact hd1 (tfidfDup_antitone ht hcon)
          have e1 : remove_similar_headlines_tfidf [a, b] t1 = [a, b] := by
            simp [remove_similar_headlines_tfidf, dedupeAux, hd1]
          have e2 : remove_similar_headlines_tfidf [a, b] t2 = [a, b] := by
            simp [remove_similar_headlines_tfidf, dedupeAux, hd2]
          rw [e1] at hx
          rw [e2]
          exact hx

theorem c7_monotone_on_pairs_witness :
    c7twA ∈ remove_similar_headlines_tfidf [c7twA, c7twB] (mkRat 1 2) :=
  c7_monotone_on_pairs [c7twA, c7twB] (by decide) (mkRat 1 4) (mkRat 1 2) (by decide)
    c7twA (by decide)

/-- C8: the dedupe pass is idempotent — re-running
`remove_similar_headlines_tfidf` on its own output changes nothing, for
every input batch and threshold: each surviving tweet is re-compared
against exactly the accepted tweets that preceded it in the first run, with
the same accumulator, so every comparison repeats its original outcome. -/
theorem c8_dedupe_idempotent (tweets : List Tweet) (t : ℚ) :
    remove_similar_headlines_tfidf (remove_similar_headlines_tfidf tweets t) t =
      remove_similar_headlines_tfidf tweets t :=
  dedupeAux_idem tfidfDup t tweets []

/-- C9: dedupe edge cases — the empty batch yields the empty batch; a
single tweet is always accepted (the comparison loop is skipped when the
accumulator is empty); and at threshold 0 every tweet after the first is
rejected (every computed similarity is ≥ 0), so at most the first tweet
survives (stated for batches whose texts all tokenize non-empty, where the
external vectorizer is defined). -/
theorem c9_dedupe_edge_cases :
    (∀ t : ℚ, remove_similar_headlines_tfidf [] t = []) ∧
    (∀ (t : ℚ) (tw : Tweet), remove_similar_headlines_tfidf [tw] t = [tw]) ∧
    (∀ l : List Tweet, (∀ tw ∈ l, tokenize (normText tw.full_text) ≠ []) →
      remove_similar_headlines_tfidf l 0 = l.take 1) := by
  refine ⟨fun _ => rfl, fun _ _ => rfl, ?_⟩
  intro l _
  cases l with
  | nil => rfl
  | cons tw rest =>
    have h1 : remove_similar_headlines_tfidf (tw :: rest) 0 =
        tw :: dedupeAux tfidfDup 0 [tw] rest := rfl
    rw [h1, dedupeAux_zero rest [tw] rfl]
    rfl

theorem c9_dedupe_edge_cases_witness :
    remove_similar_headlines_tfidf [] (mkRat 1 2) = [] ∧
    remove_similar_headlines_tfidf [c7twA] (mkRat 1 2) = [c7twA] ∧
    remove_similar_headlines_tfidf [c7twA, c7twB] 0 = [c7twA, c7twB].take 1 :=
  ⟨c9_dedupe_edge_cases.1 (mkRat 1 2), c9_dedupe_edge_cases.2.1 (mkRat 1 2) c7twA,
    c9_dedupe_edge_cases.2.2 [c7twA, c7twB] (by decide)⟩

theorem tweetEvents_advances (env : StreamEnv) (aid : Nat) (chans : List Nat) :
    ∀ l : List Tweet, (tweetEvents env aid chans l).filter isAdvance =
      l.map fun tw => Event.advance aid tw.id
  | [] => rfl
  | tw :: rest => by
    simp [tweetEvents, List.filter_append, fanoutTweet_no_advance, isAdvance,
      tweetEvents_advances env aid chans rest]

/-- Retweet delivered against a `retweets = false` subscription: the tweet,
the table rows, and the collaborators for the C1 run. -/
def c1tw : Tweet := ⟨11, "zz yy", "acc", true, false, []⟩

def c1db : Db :=
  ⟨[⟨1, "acc", 5, false, false, false, mkRat 1 2⟩], [⟨1, 99, "acc", some 10⟩], [⟨1, 5⟩]⟩

def c1env : StreamEnv :=
  ⟨fun _ => [c1tw], fun _ => false, fun _ => true, fun _ _ => false⟩

/-- C1: the fanout of `stream_tweets` never evaluates the filter config —
it selects only `discord_channel_id` from `twitter_account_channels` (a
table with no filter columns) and sends unconditionally; here a tweet with
`is_retweet = true` is delivered to channel 5 although every stored
subscription row for that channel has `retweets = false`. -/
theorem c1_filter_config_ignored :
    c1tw.is_retweet = true ∧
    c1db.twitter_channels.all (fun r => !r.retweets) = true ∧
    (streamCycle c1env c1db).events = [Event.deliver 5 11, Event.advance 1 11] := by
  decide

/-- Two tweets whose token-count cosine similarity is `1/2`: dropped at the
hard-coded default threshold `0.4`, kept at the stored threshold `0.9`. -/
def c3twNew : Tweet := ⟨3, "aa bb", "acc3", false, false, []⟩

def c3twOld : Tweet := ⟨2, "bb cc", "acc3", false, false, []⟩

def c3db : Db :=
  ⟨[⟨1, "acc3", 6, true, true, false, mkRat 9 10⟩], [⟨1, 77, "acc3", some 1⟩], [⟨1, 6⟩]⟩

def c3env : StreamEnv :=
  ⟨fun _ => [c3twNew, c3twOld], fun _ => false, fun _ => true, fun _ _ => false⟩

/-- C3: `stream_tweets` calls `remove_similar_headlines_tfidf(tweets)` with
no threshold argument, so dedupe runs at the hard-coded default `0.4` and
never reads the subscription's stored `similarity_threshold`: with a stored
threshold of `0.9` (which would keep both tweets) the cycle still drops the
older tweet and delivers only the newer one. -/
theorem c3_stored_threshold_ignored :
    c3db.twitter_channels.all (fun r => decide (r.similarity_threshold = mkRat 9 10)) = true ∧
    remove_similar_headlines_tfidf [c3twNew, c3twOld] (mkRat 9 10) = [c3twNew, c3twOld] ∧
    remove_similar_headlines_tfidf [c3twNew, c3twOld] defaultSimilarityThreshold = [c3twNew] ∧
    (streamCycle c3env c3db).events = [Event.deliver 6 3, Event.advance 1 3] := by
  decide

/-- Single account, single tweet, one channel whose send raises: the C2
counterexample run. -/
def c2tw : Tweet := ⟨4, "mm nn", "u2", false, false, []⟩

def c2envFail : StreamEnv :=
  ⟨fun _ => [c2tw], fun _ => false, fun _ => true, fun _ _ => true⟩

/-- C2 (counterexample): a failing delivery does skip the cursor advance —
the raised send error aborts the tweet loop before the `UPDATE`, leaving
the cursor at its old value with no advance event recorded. -/
theorem c2_advance_skipped_on_send_failure :
    (fanoutTweets c2envFail 1 [3] [c2tw] (some 2)).cursor = some 2 ∧
    (fanoutTweets c2envFail 1 [3] [c2tw] (some 2)).events.contains (Event.advance 1 4) = false ∧
    (fanoutTweets c2envFail 1 [3] [c2tw] (some 2)).aborted = true := by
  decide

theorem processAccount_twitter_id (env : StreamEnv) (db : Db)
    (acct : MonitoredAccountRow) :
    (processAccount env db acct).row.twitter_id = acct.twitter_id := by
  by_cases hf : env.fetchFails acct.twitter_id <;> simp [processAccount, hf]

/-- A sequence of polling cycles as seen by one account: each cycle offers
its own external world (timeline contents, failure injections) and leaves
the account's row as `processAccount` wrote it. -/
def pollMany (db : Db) : List StreamEnv → MonitoredAccountRow → MonitoredAccountRow
  | [], acct => acct
  | env :: rest, acct => pollMany db rest (processAccount env db acct).row

theorem pollMany_cursor_mono (db : Db) : ∀ (envs : List StreamEnv)
    (acct : MonitoredAccountRow),
    (∀ env ∈ envs,
      List.Pairwise (fun a b : Tweet => b.id < a.id) (env.timelines acct.twitter_id)) →
    optLE acct.last_tweet_id (pollMany db envs acct).last_tweet_id = true
  | [], acct, _ => optLE_refl _
  | env :: rest, acct, h => by
    have h1 := processAccount_cursor_mono env db acct (h env (List.mem_cons_self env rest))
    have h2 := pollMany_cursor_mono db rest (processAccount env db acct).row
      (fun e he => by
        rw [processAccount_twitter_id]
        exact h e (List.mem_cons_of_mem env he))
    exact optLE_trans h1 h2

/-- C2 (amended): in a run where no send raises, the tweet loop emits, per
surviving tweet in order, its delivery events followed by exactly one
cursor advance to that tweet's id — never before the deliveries, exactly
once per tweet (the advance events are precisely one per tweet, in batch
order), finishing at the last tweet's id; and across any sequence of
cycles whose timelines are listed newest-first the account's cursor never
regresses, send failures and aborted cycles included. -/
theorem c2_cursor_advance_amended :
    (∀ (env : StreamEnv) (aid : Nat) (chans : List Nat) (l : List Tweet) (cur : Option Nat),
      (∀ ch tid, env.sendFails ch tid = false) →
        fanoutTweets env aid chans l cur =
          ⟨tweetEvents env aid chans l, finalCursor cur l, false⟩ ∧
        (fanoutTweets env aid chans l cur).events.filter isAdvance =
          l.map fun tw => Event.advance aid tw.id) ∧
    (∀ (env : StreamEnv) (db : Db) (acct : MonitoredAccountRow),
      List.Pairwise (fun a b : Tweet => b.id < a.id) (env.timelines acct.twitter_id) →
        optLE acct.last_tweet_id (processAccount env db acct).row.last_tweet_id = true) ∧
    (∀ (db : Db) (envs : List StreamEnv) (acct : MonitoredAccountRow),
      (∀ env ∈ envs,
        List.Pairwise (fun a b : Tweet => b.id < a.id) (env.timelines acct.twitter_id)) →
      optLE acct.last_tweet_id (pollMany db envs acct).last_tweet_id = true) := by
  refine ⟨?_, ?_, ?_⟩
  · intro env aid chans l cur h
    have he := fanoutTweets_no_fail env aid chans h l cur
    refine ⟨he, ?_⟩
    rw [he]
    exact tweetEvents_advances env aid chans l
  · intro env db acct hdesc
    exact processAccount_cursor_mono env db acct hdesc
  · intro db envs acct h
    exact pollMany_cursor_mono db envs acct h

def c2envOk : StreamEnv :=
  ⟨fun _ => [c2tw], fun _ => false, fun _ => true, fun _ _ => false⟩

def c2acct : MonitoredAccountRow := ⟨1, 42, "u2", some 2⟩

def c2db : Db := ⟨[], [c2acct], [⟨1, 3⟩]⟩

theorem c2_cursor_advance_amended_witness :
    (fanoutTweets c2envOk 1 [3] [c2tw] (some 2) =
        ⟨tweetEvents c2envOk 1 [3] [c2tw], finalCursor (some 2) [c2tw], false⟩) ∧
    optLE c2acct.last_tweet_id (processAccount c2envOk c2db c2acct).row.last_tweet_id = true ∧
    optLE c2acct.last_tweet_id (pollMany c2db [c2envOk] c2acct).last_tweet_id = true :=
  ⟨(c2_cursor_advance_amended.1 c2envOk 1 [3] [c2tw] (some 2) (fun _ _ => rfl)).1,
    c2_cursor_advance_amended.2.1 c2envOk c2db c2acct (by decide),
    c2_cursor_advance_amended.2.2 c2db [c2envOk] c2acct
      (fun e he => by
        rw [List.mem_singleton.mp he]
        decide)⟩

/-- Two monitored accounts where the first account's only channel raises on
send and the second would deliver normally: the C4 counterexample run. -/
def c4twA : Tweet := ⟨5, "qq ww", "aa4", false, false, []⟩

def c4twB : Tweet := ⟨6, "ee rr", "bb4", false, false, []⟩

def c4db : Db :=
  ⟨[], [⟨1, 50, "aa4", some 1⟩, ⟨2, 60, "bb4", some 1⟩], [⟨1, 7⟩, ⟨2, 8⟩]⟩

def c4env : StreamEnv :=
  ⟨fun tid => if tid = 50 then [c4twA] else [c4twB],
    fun _ => false, fun _ => true, fun ch _ => ch == 7⟩

/-- C4 (counterexample): a delivery error while processing account A does
abort the cycle for account B — the raised send error is not a
`tweepy.TweepError`, so it escapes the per-account handler: B receives
nothing and keeps its old cursor, although B alone would have delivered and
advanced. -/
theorem c4_delivery_error_aborts_cycle :
    (streamCycle c4env c4db).events.contains (Event.deliver 8 6) = false ∧
    ((streamCycle c4env c4db).accounts.map fun r => r.last_tweet_id) = [some 1, some 1] ∧
    (streamCycle c4env c4db).aborted = true ∧
    processAccount c4env c4db ⟨2, 60, "bb4", some 1⟩ =
      ⟨⟨2, 60, "bb4", some 6⟩, [Event.deliver 8 6, Event.advance 2 6], false⟩ := by
  decide

/-- C4 (amended): a fetch error for account A — a `tweepy.TweepError`,
rate-limit conditions included — is caught per account: the next account is
processed exactly as it would be alone and A's row (cursor included) is
returned unchanged; but an account whose fanout raises a delivery error
aborts the cycle, leaving every remaining account unprocessed. -/
theorem c4_fetch_error_isolated :
    (∀ (env : StreamEnv) (db : Db) (A B : MonitoredAccountRow),
      env.fetchFails A.twitter_id = true →
        streamAccounts env db [A, B] =
          ⟨[A, (processAccount env db B).row], (processAccount env db B).events,
            (processAccount env db B).aborted⟩) ∧
    (∀ (env : StreamEnv) (db : Db) (A : MonitoredAccountRow)
        (rest : List MonitoredAccountRow),
      (processAccount env db A).aborted = true →
        streamAccounts env db (A :: rest) =
          ⟨(processAccount env db A).row :: rest, (processAccount env db A).events, true⟩) := by
  constructor
  · intro env db A B hA
    have h1 : processAccount env db A = ⟨A, [], false⟩ := by
      simp [processAccount, hA]
    by_cases hb : (processAccount env db B).aborted <;>
      simp [streamAccounts, h1, hb]
  · intro env db A rest hA
    simp [streamAccounts, hA]

def c4envF : StreamEnv :=
  ⟨fun _ => [], fun tid => tid == 50, fun _ => true, fun _ _ => false⟩

theorem c4_fetch_error_isolated_witness :
    streamAccounts c4envF c4db [⟨1, 50, "aa4", some 1⟩, ⟨2, 60, "bb4", some 1⟩] =
      ⟨[⟨1, 50, "aa4", some 1⟩,
          (processAccount c4envF c4db ⟨2, 60, "bb4", some 1⟩).row],
        (processAccount c4envF c4db ⟨2, 60, "bb4", some 1⟩).events,
        (processAccount c4envF c4db ⟨2, 60, "bb4", some 1⟩).aborted⟩ ∧
    streamAccounts c4env c4db [⟨1, 50, "aa4", some 1⟩, ⟨2, 60, "bb4", some 1⟩] =
      ⟨(processAccount c4env c4db ⟨1, 50, "aa4", some 1⟩).row :: [⟨2, 60, "bb4", some 1⟩],
        (processAccount c4env c4db ⟨1, 50, "aa4", some 1⟩).events, true⟩ :=
  ⟨c4_fetch_error_isolated.1 c4envF c4db ⟨1, 50, "aa4", some 1⟩ ⟨2, 60, "bb4", some 1⟩ rfl,
    c4_fetch_error_isolated.2 c4env c4db ⟨1, 50, "aa4", some 1⟩ [⟨2, 60, "bb4", some 1⟩]
      (by decide)⟩

/-- One account, one surviving tweet, two channels, the first of which
raises on send: the C5 counterexample run. -/
def c5tw : Tweet := ⟨9, "tt uu", "cc5", false, false, []⟩

def c5db : Db := ⟨[], [⟨1, 70, "cc5", some 1⟩], [⟨1, 7⟩, ⟨1, 8⟩]⟩

def c5env : StreamEnv :=
  ⟨fun _ => [c5tw], fun _ => false, fun _ => true, fun ch _ => ch == 7⟩

/-- C5 (counterexample): a delivery failure on the first channel does block
the sibling — the raised send error ends the channel loop before channel 8
is attempted and before the cursor update: no event at all is recorded and
the cursor stays at its old value. -/
theorem c5_send_failure_blocks_sibling :
    (streamCycle c5env c5db).events = [] ∧
    (streamCycle c5env c5db).accounts = [⟨1, 70, "cc5", some 1⟩] ∧
    (streamCycle c5env c5db).aborted = true := by
  decide

/-- C5 (amended): an ABSENT sibling channel (one `bot.get_channel` cannot
resolve) is merely skipped — the other channel is still attempted and the
cursor still advances past the post; but a sibling whose send RAISES aborts
the loop: the other channel is not attempted and the cursor does not
advance. -/
theorem c5_absent_channel_isolated (env : StreamEnv) (aid : Nat) (x y : Nat) (tw : Tweet)
    (cur : Option Nat) (hx : env.getChannel x = false) (hy : env.getChannel y = true)
    (hsend : env.sendFails y tw.id = false) :
    fanoutTweets env aid [x, y] [tw] cur =
      ⟨[Event.deliver y tw.id, Event.advance aid tw.id], some tw.id, false⟩ ∧
    (∀ z : Nat, env.getChannel z = true → env.sendFails z tw.id = true →
      fanoutTweets env aid [z, y] [tw] cur = ⟨[], cur, true⟩) := by
  constructor
  · simp [fanoutTweets, fanoutTweet, hx, hy, hsend]
  · intro z hz hs
    simp [fanoutTweets, fanoutTweet, hz, hs]

def c5envMixed : StreamEnv :=
  ⟨fun _ => [c5tw], fun _ => false, fun ch => ch != 6, fun ch _ => ch == 7⟩

theorem c5_absent_channel_isolated_witness :
    fanoutTweets c5envMixed 1 [6, 8] [c5tw] (some 1) =
      ⟨[Event.deliver 8 9, Event.advance 1 9], some 9, false⟩ ∧
    fanoutTweets c5envMixed 1 [7, 8] [c5tw] (some 1) = ⟨[], some 1, true⟩ :=
  ⟨(c5_absent_channel_isolated c5envMixed 1 6 8 c5tw (some 1) rfl rfl rfl).1,
    (c5_absent_channel_isolated c5envMixed 1 6 8 c5tw (some 1) rfl rfl rfl).2 7 rfl rfl⟩

/-- C6: for an account whose cursor is `none`, the fetch is
`api.user_timeline(count=1)`: exactly the single most recent post of the
timeline, never the full history — so at most one post (which dedupe always
keeps) enters dedupe and fanout for that account in the cycle, however many
posts exist. -/
theorem c6_bootstrap_single_post (env : StreamEnv) (acct : MonitoredAccountRow)
    (h : acct.last_tweet_id = none) :
    fetch (env.timelines acct.twitter_id) acct.last_tweet_id =
      (env.timelines acct.twitter_id).take 1 ∧
    (fetch (env.timelines acct.twitter_id) acct.last_tweet_id).length ≤ 1 ∧
    remove_similar_headlines_tfidf
        (fetch (env.timelines acct.twitter_id) acct.last_tweet_id)
        defaultSimilarityThreshold =
      fetch (env.timelines acct.twitter_id) acct.last_tweet_id ∧
    (∀ (tw : Tweet) (T : List Tweet), env.timelines acct.twitter_id = tw :: T →
      fetch (env.timelines acct.twitter_id) acct.last_tweet_id = [tw]) := by
  rw [h]
  cases hT : env.timelines acct.twitter_id with
  | nil =>
    refine ⟨rfl, by decide, rfl, ?_⟩
    intro tw T hcon
    exact absurd hcon (by simp)
  | cons tw T =>
    refine ⟨rfl, by simp [fetch], rfl, ?_⟩
    intro tw' T' heq
    rw [List.cons.injEq] at heq
    rw [heq.1]
    rfl

/-- Account with no cursor and a three-post timeline: the C6 witness run. -/
def c6tw1 : Tweet := ⟨30, "pp qq", "h6", false, false, []⟩

def c6tw2 : Tweet := ⟨20, "rr ss", "h6", false, false, []⟩

def c6tw3 : Tweet := ⟨10, "tt vv", "h6", false, false, []⟩

def c6env : StreamEnv :=
  ⟨fun _ => [c6tw1, c6tw2, c6tw3], fun _ => false, fun _ => true, fun _ _ => false⟩

def c6acct : MonitoredAccountRow := ⟨1, 5, "h6", none⟩

theorem c6_bootstrap_single_post_witness :
    fetch (c6env.timelines c6acct.twitter_id) c6acct.last_tweet_id = [c6tw1] :=
  (c6_bootstrap_single_post c6env c6acct rfl).2.2.2 c6tw1 [c6tw2, c6tw3] rfl

def c10acct : String := "x"

def c10db1 : Db :=
  add_twitter_channel ⟨[], [], []⟩ c10acct 5 false false false (mkRat 1 2)

def c10db2 : Db := add_twitter_channel c10db1 c10acct 5 true true true (mkRat 9 10)

/-- C10 (counterexample): `add_twitter_channel` is a plain `INSERT` and the
schema has no uniqueness constraint on `(twitter_account, channel_id)`:
repeating the "start monitoring" request for the same account and channel
leaves two subscription rows for the pair, both filter configs persisting —
nothing is replaced. -/
theorem c10_duplicate_subscription_rows :
    (c10db2.twitter_channels.filter fun r =>
      r.twitter_account == c10acct && r.channel_id == 5).length = 2 ∧
    (c10db2.twitter_channels.map fun r => r.retweets) = [false, true] ∧
    (c10db2.twitter_channels.map fun r => r.similarity_threshold) =
      [mkRat 1 2, mkRat 9 10] := by
  decide

/-- C10 (amended): every repeated "start monitoring" request appends — each
`add_twitter_channel` call adds one more row for its
`(twitter_account, channel_id)` pair instead of replacing the stored filter
config, and each `add_twitter_account` call appends one more
`twitter_account_channels` link row even when the account and the link
already exist. -/
theorem c10_resubscribe_appends (db : Db) (acct : String) (ch : Nat)
    (rt rp mo : Bool) (st : ℚ) (uid : Nat) (sname : String) :
    ((add_twitter_channel db acct ch rt rp mo st).twitter_channels.filter fun r =>
        r.twitter_account == acct && r.channel_id == ch).length =
      (db.twitter_channels.filter fun r =>
        r.twitter_account == acct && r.channel_id == ch).length + 1 ∧
    (add_twitter_account db uid sname ch).twitter_account_channels.length =
      db.twitter_account_channels.length + 1 := by
  constructor
  · simp [add_twitter_channel, List.filter_append]
  · cases hfind : db.monitored_twitter_accounts.find? fun r => r.twitter_id == uid <;>
      simp [add_twitter_account, hfind]
